import Mathlib

/-!
Shallow embedding of the background video-generation job lifecycle of the
photo-booth backend: the job submitter, worker and status/result readers in
`backend/app/api/routes/auto_vlog.py` and
`backend/app/workers/video_worker.py`, together with the result-dict
construction of `backend/app/ai_vid/auto_vlog_generator.generate_vlog`.

Job records are JSON dictionaries persisted in `/tmp/job_{job_id}.json`;
we model them as finite partial maps from the (closed) set of field names
used by the code to JSON values, where `none` means the key is absent and
`some Value.null` means the key is present with Python `None` / JSON null.
The in-memory `jobs` tracker and the on-disk store are partial maps from
job-id strings to such records.  External effects (the subprocess launch,
image decoding, `generate_vlog`, the Cloudinary upload) are modelled by
outcome parameters; everything the repository's own code does with job
state is translated directly.
-/

namespace AutoVlog

/-- A JSON value as used in the job-record files: strings, numbers
(timestamps, counts; modelled as naturals since the code never computes
with them), null, or an opaque composite (such as the resolution pair). -/
inductive Value where
  | str (s : String)
  | num (n : Nat)
  | null
  deriving DecidableEq, Repr

/-- The closed set of job-record keys written anywhere in
`auto_vlog.py` or `video_worker.py`. -/
inductive Field where
  | status
  | message
  | created_at
  | completed_at
  | error
  | video_url
  | cloudinary_public_id
  | video_path
  | cloudinary_error
  | duration
  | resolution
  | clips_count
  deriving DecidableEq, Repr

/-- A job record: a Python dict with the keys above.  `none` = key absent,
`some Value.null` = key present with value `None`. -/
def Dict : Type := Field → Option Value

/-- The empty dict `{}`. -/
def Dict.empty : Dict := fun _ => none

/-- Python `d.update(u)`: keys present in `u` overwrite, all other keys of
`d` are preserved. -/
def Dict.update (d u : Dict) : Dict := fun k =>
  match u k with
  | some v => some v
  | none => d k

/-- Python `job.get(k)`: null when the key is absent (collapsing Python's
`None` for a missing key with a stored null, as JSON serialisation does). -/
def getVal (d : Dict) (k : Field) : Value := (d k).getD Value.null

/-- Python `job.get(k, dflt)`: the default only applies when the key is
absent; a stored null is returned as null. -/
def getValD (d : Dict) (k : Field) (dflt : Value) : Value := (d k).getD dflt

/-- Python truthiness of `job.get(k)` as used by `if not video_url`:
absent, `None`, the empty string and zero are falsy. -/
def truthy : Option Value → Bool
  | none => false
  | some Value.null => false
  | some (Value.str s) => decide (s ≠ "")
  | some (Value.num n) => decide (n ≠ 0)

/-- `video_worker.update_job_status(job_id, status, message, **kwargs)`:
read the current record from the job file (`{}` when the file is missing),
apply `job_data.update({"status": status, "message": message, **kwargs})`
(kwargs win over the positional status/message, as in the Python dict
literal), then set `completed_at` to the current time exactly when the new
status is `"completed"`, and write the record back.  `old` is the record
previously in the file, `now` the current clock. -/
def update_job_status (old : Option Dict) (status message : String)
    (kwargs : Dict) (now : Nat) : Dict :=
  let job_data : Dict := old.getD Dict.empty
  let upd : Dict := fun k =>
    match kwargs k with
    | some v => some v
    | none =>
      if k = Field.status then some (Value.str status)
      else if k = Field.message then some (Value.str message)
      else none
  let d1 : Dict := Dict.update job_data upd
  if status = "completed" then
    fun k => if k = Field.completed_at then some (Value.num now) else d1 k
  else d1

/-- The in-memory `jobs` tracker of `auto_vlog.py` (a Python dict keyed by
job id). -/
def Mem : Type := String → Option Dict

/-- The persisted job-state store: one record file `/tmp/job_{jid}.json`
per job id; `none` means no file (or an unparsable one, which the readers
skip). -/
def FStore : Type := String → Option Dict

/-- Errors signalled synchronously by the HTTP routes (HTTPException),
tagged with their meaning: 404 not found, 400 invalid input, 500 launch
failure, 500 job failed (result endpoint), 425 not ready, other 500s. -/
inductive ApiError where
  | notFound
  | invalidInput (detail : String)
  | launchFailure (detail : String)
  | failed (err : Value)
  | notReady (st : Option Value)
  | internalError (detail : String)
  deriving DecidableEq, Repr

/-- The body of the 202 response of `POST /auto-vlog`. -/
structure SubmitResp where
  job_id : String
  status : String
  message : String
  deriving DecidableEq, Repr

/-- Result of one submission: the HTTP response together with the
submitter's in-memory tracker and the persisted store after the call
(both are mutated even on a failed worker launch). -/
structure SubmitOut where
  response : Except ApiError SubmitResp
  jobs : Mem
  store : FStore

/-- The initial job record written by `generate_auto_vlog` at submission
time (the dict literal at auto_vlog.py:116-123), also dumped to the job
file. -/
def initRecord (now : Nat) : Dict := fun k =>
  match k with
  | Field.status => some (Value.str "queued")
  | Field.message => some (Value.str "Job queued for processing")
  | Field.created_at => some (Value.num now)
  | Field.video_url => some Value.null
  | Field.cloudinary_public_id => some Value.null
  | Field.error => some Value.null
  | _ => none

/-- `generate_auto_vlog(request)`: reject empty or oversized (> 20) image
lists with a 400 before any state is touched; otherwise create the job
record in memory and on disk, then start the detached worker subprocess.
`jid` stands for the freshly minted uuid4, `now` for `time.time()`, and
`launchOk` for whether `start_subprocess_worker` succeeded; when it fails
the route raises a 500 — after the record was already created. -/
def generate_auto_vlog (mem : Mem) (store : FStore) (images : List String)
    (jid : String) (now : Nat) (launchOk : Bool) : SubmitOut :=
  if images.length = 0 then
    ⟨Except.error (ApiError.invalidInput "At least one image is required"), mem, store⟩
  else if images.length > 20 then
    ⟨Except.error (ApiError.invalidInput "Maximum 20 images allowed"), mem, store⟩
  else
    let rec0 := initRecord now
    let mem' : Mem := fun s => if s = jid then some rec0 else mem s
    let store' : FStore := fun s => if s = jid then some rec0 else store s
    if launchOk then
      ⟨Except.ok ⟨jid, "queued",
        "Video generation started in background. Use /auto-vlog/status/{job_id} to check progress."⟩,
       mem', store'⟩
    else
      ⟨Except.error (ApiError.launchFailure "Failed to start video generation worker"), mem', store'⟩

/-- The merge both readers perform before answering: if the job file
exists, `jobs[job_id].update(file_data)`. -/
def mergedRec (r : Dict) (fileData : Option Dict) : Dict :=
  match fileData with
  | some fd => Dict.update r fd
  | none => r

/-- The JSON body of `GET /auto-vlog/status/{job_id}`.  `status` is the
direct index `job["status"]` (every record created by the submitter has
it); the remaining fields use `.get` and so render null when absent. -/
structure Snapshot where
  job_id : String
  status : Option Value
  message : Value
  created_at : Value
  completed_at : Value
  error : Value
  deriving DecidableEq, Repr

/-- Build the status response from the (merged) record. -/
def mkSnapshot (jid : String) (j : Dict) : Snapshot :=
  ⟨jid, j Field.status, getValD j Field.message (Value.str ""),
   getVal j Field.created_at, getVal j Field.completed_at, getVal j Field.error⟩

/-- `get_job_status(job_id)`: 404 when the id is not in the in-memory
tracker; otherwise merge the job file into the tracker and answer with the
snapshot.  Returns the response together with the tracker after the call
(the merge is a side effect on `jobs`). -/
def get_job_status (mem : Mem) (store : FStore) (jid : String) :
    Except ApiError Snapshot × Mem :=
  match mem jid with
  | none => (Except.error ApiError.notFound, mem)
  | some r =>
    let j := mergedRec r (store jid)
    let mem' : Mem := fun s => if s = jid then some j else mem s
    (Except.ok (mkSnapshot jid j), mem')

/-- The JSON body of `GET /auto-vlog/result/{job_id}` on success. -/
structure ResultPayload where
  job_id : String
  video_url : Value
  cloudinary_public_id : Value
  completed_at : Value
  message : String
  deriving DecidableEq, Repr

/-- `get_job_result(job_id)`: 404 when the id is not in the tracker;
otherwise merge the job file in, then: 500 `Job failed: ...` when
`status == "failed"` (carrying `job.get('error', 'Unknown error')`), 425
when the status is not yet `"completed"`, and on `"completed"` return the
video URL — unless `job.get("video_url")` is falsy, in which case a 500
`Video URL not found` is raised. -/
def get_job_result (mem : Mem) (store : FStore) (jid : String) :
    Except ApiError ResultPayload × Mem :=
  match mem jid with
  | none => (Except.error ApiError.notFound, mem)
  | some r =>
    let j := mergedRec r (store jid)
    let mem' : Mem := fun s => if s = jid then some j else mem s
    if j Field.status = some (Value.str "failed") then
      (Except.error (ApiError.failed ((j Field.error).getD (Value.str "Unknown error"))), mem')
    else if j Field.status = some (Value.str "completed") then
      if truthy (j Field.video_url) then
        (Except.ok ⟨jid, getVal j Field.video_url, getVal j Field.cloudinary_public_id,
          getVal j Field.completed_at, "Video available on Cloudinary CDN"⟩, mem')
      else
        (Except.error (ApiError.internalError "Video URL not found"), mem')
    else
      (Except.error (ApiError.notReady (j Field.status)), mem')

/-- The local artifact data `generate_vlog` always puts in its result dict
(auto_vlog_generator.py:428-433): the rendered file's path plus metadata.
Duration/resolution/clip count are opaque values here (floats / pairs in
the source) — the job-state code only copies them. -/
structure VideoArtifact where
  local_path : String
  duration : Value
  resolution : Value
  clips_count : Value
  deriving DecidableEq, Repr

/-- Outcome of the Cloudinary upload attempt inside `generate_vlog`
(auto_vlog_generator.py:435-453): not attempted (flag off or SDK
unavailable), successful, `upload_result["success"]` falsy (with its
`error` entry), or an exception (stringified). -/
inductive UploadOutcome where
  | disabled
  | ok (url publicId : String)
  | notSuccess (err : Option Value)
  | raised (msg : String)
  deriving DecidableEq, Repr

/-- The result dict returned by `generate_vlog`; the three optional
cloudinary entries mirror key presence in the Python dict. -/
structure GenResult where
  local_path : String
  duration : Value
  resolution : Value
  clips_count : Value
  cloudinary_url : Option String
  cloudinary_public_id : Option String
  cloudinary_error : Option Value
  deriving DecidableEq, Repr

/-- Mirror of the tail of `generate_vlog` (auto_vlog_generator.py:428-455):
start from the base result and add `cloudinary_url`/`cloudinary_public_id`
on upload success, or `cloudinary_error` on upload failure, or nothing when
the upload was not attempted. -/
def generate_vlog_result (a : VideoArtifact) (u : UploadOutcome) : GenResult :=
  match u with
  | UploadOutcome.disabled =>
    ⟨a.local_path, a.duration, a.resolution, a.clips_count, none, none, none⟩
  | UploadOutcome.ok url publicId =>
    ⟨a.local_path, a.duration, a.resolution, a.clips_count, some url, some publicId, none⟩
  | UploadOutcome.notSuccess err =>
    ⟨a.local_path, a.duration, a.resolution, a.clips_count, none, none, some (err.getD Value.null)⟩
  | UploadOutcome.raised msg =>
    ⟨a.local_path, a.duration, a.resolution, a.clips_count, none, none, some (Value.str msg)⟩

/-- One call the worker makes to `update_job_status`: positional status and
message, plus the keyword arguments. -/
structure WriteArgs where
  status : String
  message : String
  kwargs : Dict

/-- A progress write: `update_job_status(job_id, "processing", msg)`. -/
def procWrite (msg : String) : WriteArgs := ⟨"processing", msg, Dict.empty⟩

/-- The failure write in the worker's `except` block
(video_worker.py:159-164). -/
def failWrite (msg : String) : WriteArgs :=
  ⟨"failed", "Video generation failed: " ++ msg,
   fun k => if k = Field.error then some (Value.str msg) else none⟩

/-- The keyword arguments of the worker's terminal `completed` write
(video_worker.py:126-151): with a Cloudinary URL in the result, the URL
and metadata; otherwise the local path, the cloudinary error detail, and
`error="Cloudinary upload failed"` (note: no `clips_count` on this
branch). -/
def completedKwargs (r : GenResult) : Dict :=
  match r.cloudinary_url with
  | some url => fun k =>
    match k with
    | Field.video_url => some (Value.str url)
    | Field.cloudinary_public_id => some ((r.cloudinary_public_id.map Value.str).getD Value.null)
    | Field.duration => some r.duration
    | Field.resolution => some r.resolution
    | Field.clips_count => some r.clips_count
    | _ => none
  | none => fun k =>
    match k with
    | Field.video_path => some (Value.str r.local_path)
    | Field.cloudinary_error => some (r.cloudinary_error.getD Value.null)
    | Field.duration => some r.duration
    | Field.resolution => some r.resolution
    | Field.error => some (Value.str "Cloudinary upload failed")
    | _ => none

/-- The worker's terminal write on pipeline success, for either upload
outcome. -/
def completedWrite (r : GenResult) : WriteArgs :=
  match r.cloudinary_url with
  | some _ => ⟨"completed", "Video generated and uploaded to Cloudinary CDN", completedKwargs r⟩
  | none => ⟨"completed", "Video generated but Cloudinary upload failed", completedKwargs r⟩

/-- Where the worker's pipeline of external steps gives out, if anywhere:
reading/parsing the staged images file raises; decoding one of the `n`
images raises; `generate_vlog` raises with message `msg`; or
`generate_vlog` returns `r`.  `n` is the number of staged images (it
appears in a progress message). -/
inductive WorkerOutcome where
  | loadFail (msg : String)
  | decodeFail (n : Nat) (msg : String)
  | genFail (n : Nat) (msg : String)
  | genOk (n : Nat) (r : GenResult)

/-- The progress message formatted before decoding. -/
def decodingMsg (n : Nat) : String := "Decoding " ++ toString n ++ " images..."

/-- The exact sequence of `update_job_status` calls the worker's
`main` makes (video_worker.py:52-164) for each outcome: processing
updates up to the failing step, then the single terminal write. -/
def workerWrites : WorkerOutcome → List WriteArgs
  | WorkerOutcome.loadFail msg =>
    [procWrite "Loading images...", failWrite msg]
  | WorkerOutcome.decodeFail n msg =>
    [procWrite "Loading images...", procWrite (decodingMsg n), failWrite msg]
  | WorkerOutcome.genFail n msg =>
    [procWrite "Loading images...", procWrite (decodingMsg n),
     procWrite "Generating video with AI effects...", failWrite msg]
  | WorkerOutcome.genOk n r =>
    [procWrite "Loading images...", procWrite (decodingMsg n),
     procWrite "Generating video with AI effects...", completedWrite r]

/-- Apply one worker write to the current persisted record. -/
def applyWrite (rec : Option Dict) (w : WriteArgs) (now : Nat) : Option Dict :=
  some (update_job_status rec w.status w.message w.kwargs now)

/-- Fold a sequence of worker writes over the persisted record. -/
def applyWrites (rec : Option Dict) (ws : List WriteArgs) (now : Nat) : Option Dict :=
  ws.foldl (fun acc w => applyWrite acc w now) rec

/-- All intermediate states of the persisted record along a run: the
record before any worker write, then after each write in turn. -/
def recordStages (o : WorkerOutcome) (now : Nat) (init : Option Dict) : List (Option Dict) :=
  (workerWrites o).scanl (fun acc w => applyWrite acc w now) init

/-- The mutable state a worker run touches: whether the per-job temporary
directory (decoded inputs and intermediate artifacts) exists, whether the
staged images file exists, and the persisted job record. -/
structure WState where
  tempDir : Bool
  imagesFile : Bool
  record : Option Dict

/-- The `try`/`except` body of the worker's `main`: performs the status
writes of `workerWrites` and creates the temporary staging directory
(which happens right after the images file is read, so on every outcome
except a load failure). -/
def workerBody (o : WorkerOutcome) (now : Nat) (s : WState) : WState :=
  { s with
    tempDir := match o with | WorkerOutcome.loadFail _ => s.tempDir | _ => true
    record := applyWrites s.record (workerWrites o) now }

/-- The worker's `finally` block (video_worker.py:166-180): remove the
temporary directory and delete the staged images file, on every exit
path. -/
def workerFinally (s : WState) : WState := { s with tempDir := false, imagesFile := false }

/-- A full worker run: the try/except body followed by the `finally`
cleanup. -/
def runWorker (o : WorkerOutcome) (now : Nat) (s : WState) : WState :=
  workerFinally (workerBody o now s)

/-- The sequence of `status` values written to a job's record over its
life: the submitter's initial `queued`, then everything the worker
writes. -/
def statusTrace (o : WorkerOutcome) : List String :=
  "queued" :: (workerWrites o).map WriteArgs.status

/-- Rank of a status along the lifecycle ordering
`queued → processing → {completed | failed}`. -/
def rank : String → Nat
  | "queued" => 0
  | "processing" => 1
  | "completed" => 2
  | "failed" => 2
  | _ => 3

/-- Is this status terminal? -/
def isTerminal (s : String) : Bool := s = "completed" ∨ s = "failed"

/-- A record field is populated when it is present and not null. -/
def populated (d : Dict) (k : Field) : Bool :=
  match d k with
  | some Value.null => false
  | some _ => true
  | none => false

/-- The record's result field in the sense of the spec: the artifact
reference, i.e. the Cloudinary URL or the local-path fallback. -/
def resultPopulated (d : Dict) : Bool :=
  populated d Field.video_url || populated d Field.video_path

/-- The record's error field is populated. -/
def errorPopulated (d : Dict) : Bool := populated d Field.error

/-- The result/error population discipline the records actually follow:
nothing populated while `queued`/`processing`; on `failed` only the error;
on `completed` with a Cloudinary URL only the result; on `completed` after
an upload failure both the local-path result and the error note. -/
def recordOk (od : Option Dict) : Bool :=
  let d := od.getD Dict.empty
  if d Field.status = some (Value.str "queued") ∨ d Field.status = some (Value.str "processing") then
    !resultPopulated d && !errorPopulated d
  else if d Field.status = some (Value.str "failed") then
    errorPopulated d && !resultPopulated d
  else if d Field.status = some (Value.str "completed") then
    if populated d Field.video_url then resultPopulated d && !errorPopulated d
    else resultPopulated d && errorPopulated d
  else
    false

/-- The message of the worker's terminal failure outcome, when the run
fails: the stringified exception. -/
def failMsg : WorkerOutcome → Option String
  | WorkerOutcome.loadFail m => some m
  | WorkerOutcome.decodeFail _ m => some m
  | WorkerOutcome.genFail _ m => some m
  | WorkerOutcome.genOk _ _ => none

/-- Did the attempted Cloudinary upload inside `generate_vlog` fail? -/
def uploadFailed : UploadOutcome → Bool
  | UploadOutcome.notSuccess _ => true
  | UploadOutcome.raised _ => true
  | _ => false

/-- The upload-failure detail `generate_vlog` records under
`cloudinary_error`. -/
def uploadErrDetail : UploadOutcome → Value
  | UploadOutcome.notSuccess e => e.getD Value.null
  | UploadOutcome.raised m => Value.str m
  | _ => Value.null

/-- Concrete artifact used by witness instances. -/
def wArt : VideoArtifact := ⟨"/tmp/v.mp4", Value.num 12, Value.str "1080x1920", Value.num 3⟩

/-- Concrete worker start state used by witness instances. -/
def wState0 : WState := ⟨true, true, some (initRecord 0)⟩

/-- Concrete completed job record used by the `get_result` witness. -/
def w1rec : Dict := fun k =>
  match k with
  | Field.status => some (Value.str "completed")
  | Field.video_url => some (Value.str "http://cdn/x")
  | _ => none

/-- Concrete in-memory tracker holding `w1rec` under id `a`. -/
def w1mem : Mem := fun s => if s = "a" then some w1rec else none

/-- Concrete empty file store. -/
def w1store : FStore := fun _ => none

/-- Concrete tracker for the `get_status` idempotence witness. -/
def w8mem : Mem := fun s => if s = "a" then some (initRecord 0) else none

/-- The tracker after the first `get_status` call of the idempotence
witness. -/
def w8mem1 : Mem := (get_job_status w8mem w1store "a").2

/-- The snapshot the idempotence witness expects. -/
def w8snap : Snapshot :=
  ⟨"a", some (Value.str "queued"), Value.str "Job queued for processing",
   Value.num 0, Value.null, Value.null⟩

/-- Concrete file store holding a persisted record for an id the
in-memory tracker does not know (the restart scenario of the claim about
job existence). -/
def w9store : FStore := fun s => if s = "z" then some (initRecord 4) else none

section Lemmas

/-- Updating twice with the same dict is the same as updating once
(Python `d.update(u); d.update(u)`). -/
theorem Dict.update_idem (d u : Dict) : Dict.update (Dict.update d u) u = Dict.update d u := by
  funext k
  unfold Dict.update
  cases u k <;> rfl

/-- Frame lemma for `update_job_status`: a key that is not `status`, not
`message`, not in the kwargs, and not `completed_at`-on-completion keeps
the value it had in the old record (`{}` when the file was absent). -/
theorem update_preserve (old : Option Dict) (st msg : String) (kw : Dict) (now : Nat)
    (k : Field) (h1 : k ≠ Field.status) (h2 : k ≠ Field.message) (h3 : kw k = none)
    (h4 : st = "completed" → k ≠ Field.completed_at) :
    update_job_status old st msg kw now k = (old.getD Dict.empty) k := by
  unfold update_job_status
  by_cases hst : st = "completed"
  · simp only [if_pos hst, if_neg (h4 hst)]
    simp [Dict.update, h3, if_neg h1, if_neg h2]
  · simp only [if_neg hst]
    simp [Dict.update, h3, if_neg h1, if_neg h2]

/-- Frame lemma for a whole sequence of worker writes: a key never
mentioned by any write (and not `completed_at` under a `completed`
write) is preserved from the starting record. -/
theorem writes_preserve (ws : List WriteArgs) (rec : Option Dict) (now : Nat) (k : Field)
    (h1 : k ≠ Field.status) (h2 : k ≠ Field.message)
    (h3 : ∀ w ∈ ws, w.kwargs k = none)
    (h4 : ∀ w ∈ ws, w.status = "completed" → k ≠ Field.completed_at) :
    ((applyWrites rec ws now).getD Dict.empty) k = (rec.getD Dict.empty) k := by
  induction ws generalizing rec with
  | nil => rfl
  | cons w ws ih =>
    have hw3 : w.kwargs k = none := h3 w (List.mem_cons_self w ws)
    have hw4 : w.status = "completed" → k ≠ Field.completed_at :=
      h4 w (List.mem_cons_self w ws)
    have step : ((applyWrite rec w now).getD Dict.empty) k = (rec.getD Dict.empty) k := by
      simpa [applyWrite] using update_preserve rec w.status w.message w.kwargs now k h1 h2 hw3 hw4
    calc ((applyWrites rec (w :: ws) now).getD Dict.empty) k
        = ((applyWrites (applyWrite rec w now) ws now).getD Dict.empty) k := rfl
      _ = ((applyWrite rec w now).getD Dict.empty) k := by
          exact ih (applyWrite rec w now)
            (fun w' hw' => h3 w' (List.mem_cons_of_mem w hw'))
            (fun w' hw' => h4 w' (List.mem_cons_of_mem w hw'))
      _ = (rec.getD Dict.empty) k := step

/-- Evaluating `get_job_status` when the tracker knows the id. -/
theorem get_job_status_known (mem : Mem) (store : FStore) (jid : String) (r : Dict)
    (h : mem jid = some r) :
    get_job_status mem store jid
      = (Except.ok (mkSnapshot jid (mergedRec r (store jid))),
         fun s => if s = jid then some (mergedRec r (store jid)) else mem s) := by
  unfold get_job_status
  rw [h]

end Lemmas

/-- C7: for every worker execution — whatever the outcome of the external
steps (success, load/decode/generation failure, upload failure) and
whatever staging state the run reached — the `finally` block removes both
the per-job temporary directory and the staged images file before the
worker exits. -/
theorem C7_cleanup_on_every_path (o : WorkerOutcome) (now : Nat) (s : WState) :
    (runWorker o now s).tempDir = false ∧ (runWorker o now s).imagesFile = false :=
  ⟨rfl, rfl⟩

/-- C4: along every worker run, the sequence of status values written to
the job record (the submitter's initial `queued` followed by the worker's
writes) never decreases in the ordering `queued → processing →
{completed | failed}`, a terminal status is never followed by any further
write (in particular never by a different terminal state or a revert to
`processing`), and only the four lifecycle statuses ever appear. -/
theorem C4_status_monotonic (o : WorkerOutcome) :
    List.Chain' (fun a b => rank a ≤ rank b ∧ isTerminal a = false) (statusTrace o)
    ∧ ∀ st ∈ statusTrace o, rank st ≤ 2 := by
  cases o with
  | loadFail msg =>
    have h : statusTrace (WorkerOutcome.loadFail msg) = ["queued", "processing", "failed"] := rfl
    rw [h]
    refine ⟨?_, by decide⟩
    simp only [List.chain'_cons, List.chain'_singleton, and_true]
    decide
  | decodeFail n msg =>
    have h : statusTrace (WorkerOutcome.decodeFail n msg)
        = ["queued", "processing", "processing", "failed"] := rfl
    rw [h]
    refine ⟨?_, by decide⟩
    simp only [List.chain'_cons, List.chain'_singleton, and_true]
    decide
  | genFail n msg =>
    have h : statusTrace (WorkerOutcome.genFail n msg)
        = ["queued", "processing", "processing", "processing", "failed"] := rfl
    rw [h]
    refine ⟨?_, by decide⟩
    simp only [List.chain'_cons, List.chain'_singleton, and_true]
    decide
  | genOk n r =>
    rcases r with ⟨lp, du, re, cc, cu, cp, ce⟩
    cases cu with
    | none =>
      have h : statusTrace (WorkerOutcome.genOk n ⟨lp, du, re, cc, none, cp, ce⟩)
          = ["queued", "processing", "processing", "processing", "completed"] := rfl
      rw [h]
      refine ⟨?_, by decide⟩
      simp only [List.chain'_cons, List.chain'_singleton, and_true]
      decide
    | some url =>
      have h : statusTrace (WorkerOutcome.genOk n ⟨lp, du, re, cc, some url, cp, ce⟩)
          = ["queued", "processing", "processing", "processing", "completed"] := rfl
      rw [h]
      refine ⟨?_, by decide⟩
      simp only [List.chain'_cons, List.chain'_singleton, and_true]
      decide

/-- C2 counterexample: a concrete run in which generation raises (message
`boom`), started from the submitter's initial record: the worker's final
record has `status = failed` and the error text, but no `completed_at`
timestamp — `update_job_status` only sets `completed_at` when the new
status is `completed`. -/
theorem C2_counterexample :
    ∃ d, (runWorker (WorkerOutcome.genFail 1 "boom") 99 wState0).record = some d
      ∧ d Field.status = some (Value.str "failed")
      ∧ d Field.error = some (Value.str "boom")
      ∧ d Field.completed_at = none :=
  ⟨_, rfl, rfl, rfl, rfl⟩

/-- C2 (amended): on any unrecoverable pipeline failure the worker writes
a record with `status = failed` and the exception text in `error`, but it
does not set `completed_at` — the terminal timestamp is written only on
completion, not on failure (provided, as after any real submission, the
starting record has no `completed_at` yet). -/
theorem C2_failed_write (o : WorkerOutcome) (msg : String) (now : Nat) (s : WState)
    (ho : failMsg o = some msg)
    (hc : (s.record.getD Dict.empty) Field.completed_at = none) :
    ∃ d, (runWorker o now s).record = some d
      ∧ d Field.status = some (Value.str "failed")
      ∧ d Field.message = some (Value.str ("Video generation failed: " ++ msg))
      ∧ d Field.error = some (Value.str msg)
      ∧ d Field.completed_at = none := by
  have hpres : ∀ ws : List WriteArgs,
      (∀ w ∈ ws, w.kwargs Field.completed_at = none) →
      (∀ w ∈ ws, w.status = "completed" → False) →
      ((applyWrites s.record ws now).getD Dict.empty) Field.completed_at = none := by
    intro ws hkw hcs
    rw [writes_preserve ws s.record now Field.completed_at (by decide) (by decide) hkw
      (fun w hw hcomp => absurd hcomp (fun h => hcs w hw h))]
    exact hc
  cases o with
  | loadFail m =>
    cases ho
    refine ⟨_, rfl, rfl, rfl, rfl, ?_⟩
    have := hpres (workerWrites (WorkerOutcome.loadFail msg))
      (by intro w hw; fin_cases hw <;> rfl)
      (by intro w hw; fin_cases hw <;> simp [procWrite, failWrite])
    simpa [runWorker, workerBody, workerFinally] using this
  | decodeFail n m =>
    cases ho
    refine ⟨_, rfl, rfl, rfl, rfl, ?_⟩
    have := hpres (workerWrites (WorkerOutcome.decodeFail n msg))
      (by intro w hw; fin_cases hw <;> rfl)
      (by intro w hw; fin_cases hw <;> simp [procWrite, failWrite])
    simpa [runWorker, workerBody, workerFinally] using this
  | genFail n m =>
    cases ho
    refine ⟨_, rfl, rfl, rfl, rfl, ?_⟩
    have := hpres (workerWrites (WorkerOutcome.genFail n msg))
      (by intro w hw; fin_cases hw <;> rfl)
      (by intro w hw; fin_cases hw <;> simp [procWrite, failWrite])
    simpa [runWorker, workerBody, workerFinally] using this
  | genOk n r => simp [failMsg] at ho

/-- C2 witness: the amended statement instantiated at a concrete failing
run. -/
theorem C2_witness :
    ∃ d, (runWorker (WorkerOutcome.decodeFail 2 "bad base64") 7 wState0).record = some d
      ∧ d Field.status = some (Value.str "failed")
      ∧ d Field.message = some (Value.str ("Video generation failed: " ++ "bad base64"))
      ∧ d Field.error = some (Value.str "bad base64")
      ∧ d Field.completed_at = none :=
  C2_failed_write (WorkerOutcome.decodeFail 2 "bad base64") "bad base64" 7 wState0 rfl rfl

/-- C3 counterexample: a concrete run in which generation succeeds but the
Cloudinary upload raises: the worker's terminal record is `completed` with
both the local-path result (`video_path`) and a populated `error` field —
so it is not the case that exactly one of result/error is ever populated. -/
theorem C3_counterexample :
    ∃ d, (runWorker
        (WorkerOutcome.genOk 1 (generate_vlog_result wArt (UploadOutcome.raised "timeout")))
        99 wState0).record = some d
      ∧ d Field.status = some (Value.str "completed")
      ∧ resultPopulated d = true
      ∧ errorPopulated d = true :=
  ⟨_, rfl, rfl, rfl, rfl⟩

/-- C3 (amended): along every worker run started from the submitter's
initial record, every job record ever written satisfies: neither result
nor error is populated while the status is `queued` or `processing`; a
`failed` record populates exactly the error; a `completed` record with a
Cloudinary URL populates exactly the result; but a `completed` record
written after an upload failure populates both the local-path result and
the error field. -/
theorem C3_result_error_discipline (o : WorkerOutcome) (now t : Nat) :
    (recordStages o now (some (initRecord t))).all recordOk = true := by
  cases o with
  | loadFail msg => rfl
  | decodeFail n msg => rfl
  | genFail n msg => rfl
  | genOk n r =>
    rcases r with ⟨lp, du, re, cc, cu, cp, ce⟩
    cases cu <;> rfl

/-- C5: whenever generation succeeds and the attempted Cloudinary upload
fails (whether the SDK reported no success or raised), the worker writes
`status = completed` — not `failed` — with the result referencing the
locally produced artifact (`video_path = local_path`), the fixed upload
note in `error`, the upload failure detail in `cloudinary_error`, and the
terminal timestamp. -/
theorem C5_upload_failure_completes (a : VideoArtifact) (u : UploadOutcome)
    (n now : Nat) (s : WState) (hu : uploadFailed u = true) :
    ∃ d, (runWorker (WorkerOutcome.genOk n (generate_vlog_result a u)) now s).record = some d
      ∧ d Field.status = some (Value.str "completed")
      ∧ d Field.video_path = some (Value.str a.local_path)
      ∧ d Field.error = some (Value.str "Cloudinary upload failed")
      ∧ d Field.cloudinary_error = some (uploadErrDetail u)
      ∧ d Field.completed_at = some (Value.num now) := by
  cases u with
  | disabled => simp [uploadFailed] at hu
  | ok url publicId => simp [uploadFailed] at hu
  | notSuccess e => exact ⟨_, rfl, rfl, rfl, rfl, rfl, rfl⟩
  | raised m => exact ⟨_, rfl, rfl, rfl, rfl, rfl, rfl⟩

/-- C5 witness: the theorem instantiated at a concrete upload exception. -/
theorem C5_witness :
    ∃ d, (runWorker
        (WorkerOutcome.genOk 2 (generate_vlog_result wArt (UploadOutcome.raised "net down")))
        7 wState0).record = some d
      ∧ d Field.status = some (Value.str "completed")
      ∧ d Field.video_path = some (Value.str wArt.local_path)
      ∧ d Field.error = some (Value.str "Cloudinary upload failed")
      ∧ d Field.cloudinary_error = some (uploadErrDetail (UploadOutcome.raised "net down"))
      ∧ d Field.completed_at = some (Value.num 7) :=
  C5_upload_failure_completes wArt (UploadOutcome.raised "net down") 2 7 wState0 rfl

/-- C1 counterexample: a full concrete run of the pipeline — submit one
image, worker succeeds at generation but the upload raises, job file
written back — after which the job's merged status is `completed`, yet
`get_job_result` does not return the result: it fails with the 500
`Video URL not found`, because the upload-failure completion recorded only
`video_path` and the `video_url` from the initial record is null. -/
theorem C1_counterexample :
    (get_job_result
        (generate_auto_vlog (fun _ => none) (fun _ => none) ["img1"] "job-1" 10 true).jobs
        (fun s => if s = "job-1" then
            (runWorker (WorkerOutcome.genOk 1 (generate_vlog_result wArt (UploadOutcome.raised "timeout")))
              99 ⟨true, true,
                (generate_auto_vlog (fun _ => none) (fun _ => none) ["img1"] "job-1" 10 true).store "job-1"⟩).record
          else none)
        "job-1").1
      = Except.error (ApiError.internalError "Video URL not found")
    ∧ ∃ d, (runWorker (WorkerOutcome.genOk 1 (generate_vlog_result wArt (UploadOutcome.raised "timeout")))
          99 ⟨true, true,
            (generate_auto_vlog (fun _ => none) (fun _ => none) ["img1"] "job-1" 10 true).store "job-1"⟩).record
        = some d ∧ d Field.status = some (Value.str "completed") :=
  ⟨rfl, _, rfl, rfl⟩

/-- C1 (amended): `get_job_result` fails with `NotFound` on an unknown id;
with the recorded error (`Failed`) when the merged status is `failed`;
with `NotReady` when the status is neither terminal state; and when the
status is `completed` it returns the result only if a truthy `video_url`
is recorded — otherwise (e.g. after an upload-failure completion, which
records only the local `video_path`) it fails with the 500
`Video URL not found`. -/
theorem C1_get_result_cases (mem : Mem) (store : FStore) (jid : String) :
    (mem jid = none → (get_job_result mem store jid).1 = Except.error ApiError.notFound)
    ∧ (∀ r, mem jid = some r →
        mergedRec r (store jid) Field.status = some (Value.str "failed") →
        (get_job_result mem store jid).1
          = Except.error (ApiError.failed
              ((mergedRec r (store jid) Field.error).getD (Value.str "Unknown error"))))
    ∧ (∀ r, mem jid = some r →
        mergedRec r (store jid) Field.status ≠ some (Value.str "failed") →
        mergedRec r (store jid) Field.status ≠ some (Value.str "completed") →
        (get_job_result mem store jid).1
          = Except.error (ApiError.notReady (mergedRec r (store jid) Field.status)))
    ∧ (∀ r, mem jid = some r →
        mergedRec r (store jid) Field.status = some (Value.str "completed") →
        truthy (mergedRec r (store jid) Field.video_url) = true →
        (get_job_result mem store jid).1
          = Except.ok ⟨jid, getVal (mergedRec r (store jid)) Field.video_url,
              getVal (mergedRec r (store jid)) Field.cloudinary_public_id,
              getVal (mergedRec r (store jid)) Field.completed_at,
              "Video available on Cloudinary CDN"⟩)
    ∧ (∀ r, mem jid = some r →
        mergedRec r (store jid) Field.status = some (Value.str "completed") →
        truthy (mergedRec r (store jid) Field.video_url) = false →
        (get_job_result mem store jid).1
          = Except.error (ApiError.internalError "Video URL not found")) := by
  refine ⟨?_, ?_, ?_, ?_, ?_⟩
  · intro h
    simp [get_job_result, h]
  · intro r h hst
    simp [get_job_result, h, hst]
  · intro r h h1 h2
    simp [get_job_result, h, if_neg h1, if_neg h2]
  · intro r h h2 htr
    have h1 : mergedRec r (store jid) Field.status ≠ some (Value.str "failed") := by
      rw [h2]; decide
    simp [get_job_result, h, if_neg h1, h2, htr]
  · intro r h h2 htr
    have h1 : mergedRec r (store jid) Field.status ≠ some (Value.str "failed") := by
      rw [h2]; decide
    simp [get_job_result, h, if_neg h1, h2, htr]

/-- C1 witness: the completed-with-URL branch of the theorem at a concrete
tracker. -/
theorem C1_witness :
    (get_job_result w1mem w1store "a").1
      = Except.ok ⟨"a", getVal (mergedRec w1rec (w1store "a")) Field.video_url,
          getVal (mergedRec w1rec (w1store "a")) Field.cloudinary_public_id,
          getVal (mergedRec w1rec (w1store "a")) Field.completed_at,
          "Video available on Cloudinary CDN"⟩ :=
  (C1_get_result_cases w1mem w1store "a").2.2.2.1 w1rec rfl rfl rfl

/-- C6 counterexample: a concrete valid submission (one image) for which
the worker subprocess fails to launch: no job id is returned — the route
raises the 500 launch failure — even though the input passed validation,
and the queued job record has already been created in the tracker. -/
theorem C6_counterexample :
    (generate_auto_vlog (fun _ => none) (fun _ => none) ["img"] "job-7" 0 false).response
      = Except.error (ApiError.launchFailure "Failed to start video generation worker")
    ∧ (generate_auto_vlog (fun _ => none) (fun _ => none) ["img"] "job-7" 0 false).jobs "job-7"
      = some (initRecord 0) :=
  ⟨rfl, rfl⟩

/-- C6 (amended): the submitter rejects with `InvalidInput` exactly when
the image list is empty or longer than 20, in which case no state is
touched; on valid input the queued job record is always created, and the
job id is returned with status `queued` provided the worker subprocess
launches — if the launch fails, the route instead raises a synchronous
launch-failure error (with the queued record already created). -/
theorem C6_validation (mem : Mem) (store : FStore) (images : List String)
    (jid : String) (now : Nat) (launchOk : Bool) :
    ((images.length = 0 ∨ images.length > 20) →
      (∃ d, (generate_auto_vlog mem store images jid now launchOk).response
          = Except.error (ApiError.invalidInput d))
      ∧ (generate_auto_vlog mem store images jid now launchOk).jobs = mem
      ∧ (generate_auto_vlog mem store images jid now launchOk).store = store)
    ∧ (images.length ≠ 0 → images.length ≤ 20 →
      (∀ d, (generate_auto_vlog mem store images jid now launchOk).response
          ≠ Except.error (ApiError.invalidInput d))
      ∧ (generate_auto_vlog mem store images jid now launchOk).jobs jid = some (initRecord now)
      ∧ (generate_auto_vlog mem store images jid now launchOk).store jid = some (initRecord now)
      ∧ initRecord now Field.status = some (Value.str "queued")
      ∧ (launchOk = true →
          (generate_auto_vlog mem store images jid now launchOk).response
            = Except.ok ⟨jid, "queued",
                "Video generation started in background. Use /auto-vlog/status/{job_id} to check progress."⟩)
      ∧ (launchOk = false →
          (generate_auto_vlog mem store images jid now launchOk).response
            = Except.error (ApiError.launchFailure "Failed to start video generation worker"))) := by
  constructor
  · rintro (h0 | h20)
    · refine ⟨⟨"At least one image is required", ?_⟩, ?_, ?_⟩ <;>
        simp [generate_auto_vlog, h0]
    · have h0 : images.length ≠ 0 := by omega
      refine ⟨⟨"Maximum 20 images allowed", ?_⟩, ?_, ?_⟩ <;>
        simp [generate_auto_vlog, h0, h20]
  · intro h0 h20
    have h20' : ¬ images.length > 20 := by omega
    cases launchOk <;>
      refine ⟨?_, ?_, ?_, rfl, ?_, ?_⟩ <;>
        simp [generate_auto_vlog, h0, h20']

/-- C6 witness: a concrete valid submission with a successful launch
returns the job id with status `queued`. -/
theorem C6_witness :
    (generate_auto_vlog (fun _ => none) (fun _ => none) ["a", "b"] "j9" 3 true).response
      = Except.ok ⟨"j9", "queued",
          "Video generation started in background. Use /auto-vlog/status/{job_id} to check progress."⟩ :=
  (((C6_validation (fun _ => none) (fun _ => none) ["a", "b"] "j9" 3 true).2
      (by decide) (by decide)).2.2.2.2.1) rfl

/-- C8: `get_job_status` fails with `NotFound` on an id unknown to the
in-memory tracker, and it is idempotent: when a call returns a snapshot,
calling it again with the same state store (no intervening worker write)
from the tracker the first call left behind returns the identical snapshot
and leaves the tracker unchanged. -/
theorem C8_status_idempotent (mem : Mem) (store : FStore) (jid : String) :
    (mem jid = none → get_job_status mem store jid = (Except.error ApiError.notFound, mem))
    ∧ (∀ snap m1, get_job_status mem store jid = (Except.ok snap, m1) →
        get_job_status m1 store jid = (Except.ok snap, m1)) := by
  constructor
  · intro h
    simp [get_job_status, h]
  · intro snap m1 hcall
    cases hm : mem jid with
    | none => simp [get_job_status, hm] at hcall
    | some r =>
      have hj : mergedRec (mergedRec r (store jid)) (store jid) = mergedRec r (store jid) := by
        unfold mergedRec
        cases store jid with
        | none => rfl
        | some fd => exact Dict.update_idem r fd
      rw [get_job_status_known mem store jid r hm] at hcall
      have hsnap' : snap = mkSnapshot jid (mergedRec r (store jid)) := by
        have h1 := congrArg Prod.fst hcall
        simp only at h1
        exact (Except.ok.inj h1).symm
      have hm1 : m1 = fun s => if s = jid then some (mergedRec r (store jid)) else mem s := by
        have h2 := congrArg Prod.snd hcall
        simp only at h2
        exact h2.symm
      subst hsnap'
      subst hm1
      rw [get_job_status_known _ store jid (mergedRec r (store jid)) (if_pos rfl), hj]
      have hfun : (fun s => if s = jid then some (mergedRec r (store jid))
            else if s = jid then some (mergedRec r (store jid)) else mem s)
          = fun s => if s = jid then some (mergedRec r (store jid)) else mem s := by
        funext s
        by_cases hs : s = jid <;> simp [hs]
      rw [hfun]

/-- C8 witness: the idempotence branch at a concrete tracker holding one
queued job. -/
theorem C8_witness : get_job_status w8mem1 w1store "a" = (Except.ok w8snap, w8mem1) :=
  (C8_status_idempotent w8mem w1store "a").2 w8snap w8mem1 rfl

/-- C9: job existence is decided solely by the in-memory tracker: for any
id absent from it, both `get_job_status` and `get_job_result` fail with
`NotFound` even when the state store holds a persisted record for that id
(the submitter-restart scenario); and for any id the tracker does know,
neither reader ever answers `NotFound`. -/
theorem C9_existence_in_memory (mem : Mem) (store : FStore) (jid : String)
    (rec : Dict) (hstore : store jid = some rec) :
    (mem jid = none →
      (get_job_status mem store jid).1 = Except.error ApiError.notFound
      ∧ (get_job_result mem store jid).1 = Except.error ApiError.notFound)
    ∧ (∀ r, mem jid = some r →
      (get_job_status mem store jid).1 ≠ Except.error ApiError.notFound
      ∧ (get_job_result mem store jid).1 ≠ Except.error ApiError.notFound) := by
  constructor
  · intro h
    exact ⟨by simp [get_job_status, h], by simp [get_job_result, h]⟩
  · intro r h
    constructor
    · simp [get_job_status, h]
    · simp only [get_job_result, h]
      split
      · simp
      · split
        · split <;> simp
        · simp

/-- C9 witness: with an empty tracker and a persisted record under id `z`,
both readers answer `NotFound` for `z`. -/
theorem C9_witness :
    (get_job_status (fun _ => none) w9store "z").1 = Except.error ApiError.notFound
    ∧ (get_job_result (fun _ => none) w9store "z").1 = Except.error ApiError.notFound :=
  (C9_existence_in_memory (fun _ => none) w9store "z" (initRecord 4) rfl).1 rfl

/-- C10: `update_job_status` is a read-merge-write: any key of the
existing record that is not `status`, not `message`, not among the passed
kwargs — and not `completed_at` when the new status is `completed` — keeps
its persisted value; while `status` and `message` take the passed values
(when not overridden by kwargs), every kwargs key takes its kwargs value
(unless it is `completed_at` under a `completed` status), and
`completed_at` is stamped with the current time exactly on completion. -/
theorem C10_read_merge_write (old : Dict) (st msg : String) (kw : Dict) (now : Nat) :
    (∀ k, k ≠ Field.status → k ≠ Field.message → kw k = none →
        (st = "completed" → k ≠ Field.completed_at) →
        update_job_status (some old) st msg kw now k = old k)
    ∧ (kw Field.status = none → st ≠ "completed" →
        update_job_status (some old) st msg kw now Field.status = some (Value.str st))
    ∧ (kw Field.message = none → st ≠ "completed" →
        update_job_status (some old) st msg kw now Field.message = some (Value.str msg))
    ∧ (∀ k v, kw k = some v → (st = "completed" → k ≠ Field.completed_at) →
        update_job_status (some old) st msg kw now k = some v)
    ∧ (st = "completed" →
        update_job_status (some old) st msg kw now Field.completed_at = some (Value.num now)) := by
  refine ⟨?_, ?_, ?_, ?_, ?_⟩
  · intro k h1 h2 h3 h4
    simpa using update_preserve (some old) st msg kw now k h1 h2 h3 h4
  · intro hkw hst
    simp [update_job_status, Dict.update, hkw, if_neg hst]
  · intro hkw hst
    simp [update_job_status, Dict.update, hkw, if_neg hst]
  · intro k v hkw h4
    unfold update_job_status
    by_cases hst : st = "completed"
    · simp [if_pos hst, if_neg (h4 hst), Dict.update, hkw]
    · simp [if_neg hst, Dict.update, hkw]
  · intro hst
    simp [update_job_status, if_pos hst]

/-- C10 witness: the frame branch at a concrete record — a `processing`
write with no kwargs leaves `created_at` untouched. -/
theorem C10_witness :
    update_job_status (some (initRecord 5)) "processing" "Loading images..." Dict.empty 9
        Field.created_at
      = initRecord 5 Field.created_at :=
  (C10_read_merge_write (initRecord 5) "processing" "Loading images..." Dict.empty 9).1
    Field.created_at (by decide) (by decide) rfl
    (fun h => absurd h (by decide))

end AutoVlog
